import Mathlib

/-!
# Verification of the Zettlr IPC message router (`source/main/zettlr-ipc.js`)

A shallow embedding of the `ZettlrIPC` class: the three synchronous channel
listeners (`config`, `typo`, `getCitation`/`updateItems`), the `message`
channel listener, the push API (`send`, `notify`, `notifyError`,
`updateFile`), and the two dispatch paths `handleEvent` and `runCall`.

JavaScript values crossing the process boundary are modelled by the inductive
type `Val` (with both `null` and `undefined`).  Side effects on external
collaborators and channel traffic are recorded as an ordered trace of
`Output`s.  A thrown JavaScript exception that is not caught inside the
routine under consideration is modelled by `Except.error`.

External collaborators (the Command Registry's `runCommand`, the File Index's
`findFile`/`findExact`, the Config Store, the Dictionary, the Citation
Engine, the Tag Registry, the Window Host) are not part of the two source
files; they are modelled from the spec's capability interfaces (§6) as fields
of the `App` state.
-/

/-- A JavaScript value as it appears in IPC payloads: `null`, `undefined`,
booleans, numbers (integral, as used for file hashes), strings, arrays and
plain objects (association lists of fields). -/
inductive Val : Type
  | null : Val
  | undefined : Val
  | vbool : Bool → Val
  | vnum : Int → Val
  | vstr : String → Val
  | vlist : List Val → Val
  | vobj : List (String × Val) → Val

/-- A runtime error escaping a routine (e.g. a `TypeError` from dereferencing
`null`/`undefined`).  Carried as a message string. -/
abbrev Err := String

/-- JavaScript property access `v[k]`: throws `TypeError` on `null` or
`undefined`, yields the field (or `undefined` when absent) on objects, and
`undefined` on other primitives. -/
def objGet (v : Val) (k : String) : Except Err Val :=
  match v with
  | .null => .error "TypeError: cannot read property of null"
  | .undefined => .error "TypeError: cannot read property of undefined"
  | .vobj fs => .ok ((fs.lookup k).getD .undefined)
  | _ => .ok .undefined

/-- Overwrite-or-append assignment on association lists (JS `obj[k] = x`). -/
def setAssoc : List (String × Val) → String → Val → List (String × Val)
  | [], k, x => [(k, x)]
  | (k', v') :: rest, k, x =>
    if k' = k then (k, x) :: rest else (k', v') :: setAssoc rest k x

/-- JS property assignment on a value: mutates objects, no-op on primitives. -/
def objSet (v : Val) (k : String) (x : Val) : Val :=
  match v with
  | .vobj fs => .vobj (setAssoc fs k x)
  | other => other

/-- JS truthiness, used by `(expr) ? a : b` and `!expr` in the source. -/
def truthy : Val → Bool
  | .null => false
  | .undefined => false
  | .vbool b => b
  | .vnum n => n != 0
  | .vstr s => s != ""
  | .vlist _ => true
  | .vobj _ => true

/-- JS `parseInt` as applied to an IPC-carried hash: a number parses to
itself, a decimal string parses to its value, everything else is `NaN`
(represented as `none`, on which a hash lookup finds nothing). -/
def jsParseInt (v : Val) : Option Int :=
  match v with
  | .vnum n => some n
  | .vstr s => s.toInt?
  | _ => none

/-- A file known to the File Index.  `withContentV` is the value returned by
the file's `withContent()` (the file with its full content), `metadataV` the
value of `getMetadata()`, and `search` the file's `search(terms)` method. -/
structure ZFile : Type where
  hash : Int
  path : String
  withContentV : Val
  metadataV : Val
  search : Val → Val

/-- A directory known to the File Index (only its hash is consumed here). -/
structure ZDir : Type where
  hash : Int

/-- The optional dictionary collaborator (`this._app.dict`): `check` and
`suggest` over a term value.  Modelled from the spec: Dictionary capability
interface `check(term)`, `suggest(term)`, `reload()`. -/
structure Dict : Type where
  check : Val → Bool
  suggest : Val → List String

/-- The optional citation engine (`global.citeproc`).  Modelled from the
spec: Citation Engine capability interface `getCitation(ids)`,
`updateItems(ids)`, `getIDs()`, `makeBibliography()`. -/
structure Citeproc : Type where
  getCitation : Val → Val
  updateItems : Val → Val
  getIDs : Val
  makeBibliography : Val

/-- Modelled from the spec: the Command Registry's execution of a command
(`this._app.runCommand`, whose module code is not among the two source
files).  Per §9 the resolution outcome is three-valued: the handler ran and
returned a value, the registry did not recognize the name (it raises
"unknown command"), or a recognized handler's own execution threw.  In the
JavaScript source both of the latter manifest as thrown exceptions. -/
inductive RunResult : Type
  | ok : Val → RunResult
  | notRecognized : RunResult
  | handlerThrew : Err → RunResult

/-- The whole-application state visible to the IPC layer: the File Index's
files, the Command Registry oracle, the Config Store's backing data, the
optional dictionary and citation engine, tag registries, statistics, the
current file/directory selection and window handles.  All collaborator
behavior behind `this._app` and the globals is modelled from the spec's
capability interfaces (§6), since those modules are outside the two source
files. -/
structure App : Type where
  files : List ZFile
  runCommand : String → Val → RunResult
  config : List (String × Val)
  wholeConfig : Val
  supportedLangs : Val
  availableDicts : Val
  customCSS : Val
  customCSSPath : Val
  dict : Option Dict
  citeproc : Option Citeproc
  appTags : Val
  globalTags : Val
  stats : Val
  pathDummies : Val
  currentFile : Option ZFile
  currentDir : Option ZDir
  window : Option Unit
  focusedWinMaximized : Option Bool
  askFileRes : Val → Val → Val
  findExact : Val → Option ZFile

/-- Modelled from the spec: the File Index's `findFile({hash}) -> File|null`,
a lookup of a file by its integral hash (`none` models JS `null`). -/
def findFile (app : App) (h : Option Int) : Option ZFile :=
  match h with
  | some n => app.files.find? (fun f => f.hash == n)
  | none => none

/-- Strict hash value as passed where the source does not `parseInt` first
(`ql-get-file`, `file-search`, `file-get-quicklook`): only a number can match
a numeric hash. -/
def valHash (v : Val) : Option Int :=
  match v with
  | .vnum n => some n
  | _ => none

/-- Modelled from the spec: `global.config.get(key)` of the Config Store. -/
def configGet (app : App) (k : String) : Val :=
  (app.config.lookup k).getD .undefined

/-- Modelled from the spec: `global.config.set(key, value)`. -/
def configSet (app : App) (k : String) (v : Val) : App :=
  { app with config := setAssoc app.config k v }

/-- One observable effect of the router: channel traffic (to the requesting
sender or to the active window), console diagnostics, and invocations of
external collaborators. -/
inductive Output : Type
  | senderSend : String → Val → Output
  | windowSend : Val → Output
  | startDrag : String → String → Output
  | logError : String → Val → Output
  | logUnknown : String → Output
  | quitApp : Output
  | winMaximize : Output
  | winUnmaximize : Output
  | winMinimize : Output
  | winClose : Output
  | popupMenu : Val → Val → Output
  | sendFile : Val → Output
  | selectDir : Val → Output
  | setModified : Output
  | targetsSet : Val → Output
  | openDir : Output
  | closeRoot : Val → Output
  | tagsUpdate : Val → Output
  | handleAddRoots : Val → Output
  | bulkSetConfig : Val → Output
  | dictReload : Output
  | askFile : Val → Val → Output
  | openQL : Val → Output
  | setCustomCSS : Val → Output

/-- The envelope `{command, content, cypher, returnValue}` sent on the
`message` channel; `none` models an absent attribute
(`hasOwnProperty` is false). -/
structure Message : Type where
  command : Option String
  content : Option Val
  cypher : Option String
  returnValue : Option Val

/-- The envelope serialized back to a JS object (absent attributes omitted),
as it travels over the channel. -/
def messageVal (m : Message) : Val :=
  .vobj ((match m.command with | some c => [("command", .vstr c)] | none => []) ++
         (match m.content with | some v => [("content", v)] | none => []) ++
         (match m.cypher with | some c => [("cypher", .vstr c)] | none => []) ++
         (match m.returnValue with | some v => [("returnValue", v)] | none => []))

/-- `arg.hasOwnProperty('cypher') && arg.cypher !== ''`. -/
def cypherPresent (m : Message) : Bool :=
  match m.cypher with
  | some c => c != ""
  | none => false

/-- `ZettlrIPC.send(command, content = {})`: resolve the active window
freshly; if none exists fail gracefully (no effect, return `this` for
chaining); otherwise push `{command, content}` to the window's renderer on
the `message` channel.  Total: this routine cannot throw. -/
def send (app : App) (command : String) (content : Val := .vobj []) :
    App × List Output :=
  match app.window with
  | none => (app, [])
  | some _ =>
    (app, [.windowSend (.vobj [("command", .vstr command), ("content", content)])])

/-- `global.ipc.notify(msg)`: push a notification via `send`. -/
def notify (app : App) (msg : Val) : App × List Output :=
  send app "notify" msg

/-- `global.ipc.notifyError(msg)`: push a structured error via `send`. -/
def notifyError (app : App) (msg : Val) : App × List Output :=
  send app "notify-error" msg

/-- `global.ipc.updateFile(file)`: push a partial file replacement. -/
def updateFile (app : App) (f : ZFile) : App × List Output :=
  send app "file-replace" (.vobj [("hash", .vnum f.hash), ("file", f.metadataV)])

/-- The `win-maximise` effect shared by `handleEvent` and `runCall`:
toggle maximization of the focused window, if any. -/
def winMaximiseOuts (app : App) : List Output :=
  match app.focusedWinMaximized with
  | some true => [.winUnmaximize]
  | some false => [.winMaximize]
  | none => []

/-- The `win-minimise` effect. -/
def winMinimiseOuts (app : App) : List Output :=
  match app.focusedWinMaximized with
  | some _ => [.winMinimize]
  | none => []

/-- The `win-close` effect. -/
def winCloseOuts (app : App) : List Output :=
  match app.focusedWinMaximized with
  | some _ => [.winClose]
  | none => []

/-- The built-in switch of `handleEvent`, entered when `runCommand` threw
(the `catch` block falls through to it): a `switch (cmd)` over the
backend-internal commands.  Each `break` leaves the function returning
`undefined`.  A thrown `TypeError` (e.g. a failed `findFile` dereference)
escapes as `.error`. -/
def handleBuiltin (app : App) (cmd : String) (cnt : Val) :
    Except Err (App × List Output × Val) :=
  match cmd with
  | "app-quit" => .ok (app, [.quitApp], .undefined)
  | "win-maximise" => .ok (app, winMaximiseOuts app, .undefined)
  | "win-minimise" => .ok (app, winMinimiseOuts app, .undefined)
  | "win-close" => .ok (app, winCloseOuts app, .undefined)
  | "win-menu" =>
    match objGet cnt "x", objGet cnt "y" with
    | .ok x, .ok y => .ok (app, [.popupMenu x y], .undefined)
    | .error e, _ => .error e
    | _, .error e => .error e
  | "get-paths" =>
    let (a1, o1) := send app "paths-update" app.pathDummies
    let (a2, o2) := send a1 "file-set-current"
      (match app.currentFile with | some f => .vnum f.hash | none => .null)
    let (a3, o3) := send a2 "dir-set-current"
      (match app.currentDir with | some d => .vnum d.hash | none => .null)
    match app.currentFile with
    | some f =>
      let (a4, o4) := send a3 "file-open" f.withContentV
      .ok (a4, o1 ++ o2 ++ o3 ++ o4, .undefined)
    | none => .ok (a3, o1 ++ o2 ++ o3, .undefined)
  | "file-get-quicklook" =>
    match findFile app (valHash cnt) with
    | some f =>
      let (a1, o1) := send app "file-quicklook" f.withContentV
      .ok (a1, o1, .undefined)
    | none => .error "TypeError: cannot read withContent of null"
  | "file-get" => .ok (app, [.sendFile cnt], .undefined)
  | "dir-select" => .ok (app, [.selectDir cnt], .undefined)
  | "file-modified" => .ok (app, [.setModified], .undefined)
  | "set-target" => .ok (app, [.targetsSet cnt], .undefined)
  | "dir-open" => .ok (app, [.openDir], .undefined)
  | "close-root" => .ok (app, [.closeRoot cnt], .undefined)
  | "file-search" =>
    match objGet cnt "hash", objGet cnt "terms" with
    | .ok h, .ok terms =>
      match findFile app (valHash h) with
      | some f =>
        let ret := f.search terms
        let (a1, o1) := send app "file-search-result"
          (.vobj [("hash", h), ("result", ret)])
        .ok (a1, o1, .undefined)
      | none => .error "TypeError: cannot read search of null"
    | .error e, _ => .error e
    | _, .error e => .error e
  | "force-open" =>
    match app.findExact cnt with
    | some f => .ok (app, [.sendFile (.vnum f.hash)], .undefined)
    | none => .ok (app, [], .undefined)
  | "toggle-theme" =>
    let a1 := configSet app "darkTheme" (.vbool (! truthy (configGet app "darkTheme")))
    let (a2, o2) := send a1 "config-update"
    .ok (a2, o2, .undefined)
  | "toggle-snippets" =>
    let a1 := configSet app "snippets" (.vbool (! truthy (configGet app "snippets")))
    let (a2, o2) := send a1 "config-update"
    .ok (a2, o2, .undefined)
  | "get-preferences" =>
    let toSend := objSet (objSet app.wholeConfig "supportedLangs" app.supportedLangs)
      "availableDicts" app.availableDicts
    let (a1, o1) := send app "preferences" toSend
    .ok (a1, o1, .undefined)
  | "get-pdf-preferences" =>
    let (a1, o1) := send app "pdf-preferences" app.wholeConfig
    .ok (a1, o1, .undefined)
  | "get-tags-preferences" =>
    let (a1, o1) := send app "tags-preferences" app.appTags
    .ok (a1, o1, .undefined)
  | "update-config" =>
    let (a1, o1) := send app "config-update"
    .ok (a1, [.bulkSetConfig cnt] ++ o1 ++
      (match app.dict with | some _ => [.dictReload] | none => []), .undefined)
  | "update-tags" =>
    let (a1, o1) := send app "set-tags" cnt
    .ok (a1, [.tagsUpdate cnt] ++ o1, .undefined)
  | "get-tags" =>
    let (a1, o1) := send app "set-tags" app.appTags
    .ok (a1, o1, .undefined)
  | "get-tags-database" =>
    let (a1, o1) := send app "tags-database" app.globalTags
    .ok (a1, o1, .undefined)
  | "handle-drop" => .ok (app, [.handleAddRoots cnt], .undefined)
  | "request-stats-data" =>
    let (a1, o1) := send app "stats-data" app.stats
    .ok (a1, o1, .undefined)
  | "citeproc-get-ids" =>
    let ids := match app.citeproc with | some c => c.getIDs | none => .vlist []
    let (a1, o1) := send app "citeproc-ids" ids
    .ok (a1, o1, .undefined)
  | "citeproc-make-bibliography" =>
    match app.citeproc with
    | some c =>
      let (a1, o1) := send app "citeproc-bibliography" c.makeBibliography
      .ok (a1, o1, .undefined)
    | none => .error "TypeError: cannot read makeBibliography of undefined"
  | _ => .ok (app, [.logUnknown cmd], .undefined)

/-- `ZettlrIPC.handleEvent(cmd, cnt)`: first try the Command Registry's
`runCommand` and return its result on success; the surrounding
`try { ... } catch (e) { /* Simple fall through */ }` catches EVERY exception
— the registry's "unknown command" and a recognized handler's own failure
alike — and falls through to the built-in switch. -/
def handleEvent (app : App) (cmd : String) (cnt : Val) :
    Except Err (App × List Output × Val) :=
  match app.runCommand cmd cnt with
  | .ok v => .ok (app, [], v)
  | .notRecognized => handleBuiltin app cmd cnt
  | .handlerThrew _ => handleBuiltin app cmd cnt

/-- `ZettlrIPC.runCall(cmd, arg)`: the value-returning switch used for
correlated calls.  It never consults the Command Registry; unknown names log
a diagnostic and return `null`. -/
def runCall (app : App) (cmd : String) (arg : Option Val) :
    Except Err (App × List Output × Val) :=
  match cmd with
  | "win-maximise" => .ok (app, winMaximiseOuts app, .undefined)
  | "win-minimise" => .ok (app, winMinimiseOuts app, .undefined)
  | "win-close" => .ok (app, winCloseOuts app, .undefined)
  | "request-files" =>
    match objGet (arg.getD .undefined) "filters", objGet (arg.getD .undefined) "multiSel" with
    | .ok filters, .ok multi =>
      .ok (app, [.askFile filters multi], app.askFileRes filters multi)
    | .error e, _ => .error e
    | _, .error e => .error e
  | "make-standalone" => .ok (app, [.openQL (arg.getD .undefined)], .vbool true)
  | "get-tags-database" => .ok (app, [], app.globalTags)
  | "get-custom-css" => .ok (app, [], app.customCSS)
  | "get-custom-css-path" => .ok (app, [], app.customCSSPath)
  | "set-custom-css" =>
    .ok ({ app with customCSS := arg.getD .undefined },
      [.setCustomCSS (arg.getD .undefined)], .undefined)
  | _ => .ok (app, [.logUnknown cmd], .null)

/-- `ZettlrIPC.dispatch(arg)`: default `content` to `{}` when absent, then
`handleEvent`. -/
def dispatch (app : App) (m : Message) (cmd : String) :
    Except Err (App × List Output × Val) :=
  handleEvent app cmd (m.content.getD (.vobj []))

/-- The `ipc.on('message', ...)` listener: reject envelopes without
`command`; `file-drag-start` starts a native drag from the resolved file's
path; a present non-empty `cypher` runs `runCall` and echoes the envelope
(with `returnValue` attached) back to the requesting sender on `message`;
`ql-get-file` sends the resolved file's content to the sender on `file`;
everything else is dispatched as a generic event. -/
def onMessage (app : App) (msg : Message) : Except Err (App × List Output) :=
  match msg.command with
  | none => .ok (app, [.logError "system.no_command" (messageVal msg)])
  | some cmd =>
    if cmd = "file-drag-start" then
      match objGet (msg.content.getD .undefined) "hash" with
      | .error e => .error e
      | .ok h =>
        match findFile app (jsParseInt h) with
        | some f => .ok (app, [.startDrag f.path "/assets/dragicon.png"])
        | none => .error "TypeError: cannot read path of null"
    else if cypherPresent msg then
      match runCall app cmd msg.content with
      | .error e => .error e
      | .ok (a1, outs, v) =>
        .ok (a1, outs ++
          [.senderSend "message" (messageVal { msg with returnValue := some v })])
    else if cmd = "ql-get-file" then
      match findFile app (valHash (msg.content.getD .undefined)) with
      | some f => .ok (app, [.senderSend "file" f.withContentV])
      | none => .error "TypeError: cannot read withContent of null"
    else
      match dispatch app msg cmd with
      | .error e => .error e
      | .ok (a1, outs, _) => .ok (a1, outs)

/-- The `ipc.on('config', ...)` listener: `event.returnValue =
global.config.get(key)`. -/
def configListener (app : App) (key : String) : Val :=
  configGet app key

/-- The `ipc.on('typo', ...)` listener: on `type === 'check'` set
`returnValue` to the dictionary's verdict (or `'not-ready'` when no
dictionary is loaded); on `type === 'suggest'` to the suggestion list (or
`[]`); any other `type` sets no `returnValue` at all.  The result's second
component is the `returnValue` set on the event (`none` = left unset). -/
def typoListener (app : App) (message : Val) : Except Err (App × Option Val) :=
  match objGet message "type" with
  | .error e => .error e
  | .ok (.vstr "check") =>
    match objGet message "term" with
    | .error e => .error e
    | .ok term =>
      .ok (app, some (match app.dict with
        | some d => .vbool (d.check term)
        | none => .vstr "not-ready"))
  | .ok (.vstr "suggest") =>
    match objGet message "term" with
    | .error e => .error e
    | .ok term =>
      .ok (app, some (match app.dict with
        | some d => .vlist ((d.suggest term).map .vstr)
        | none => .vlist []))
  | .ok _ => .ok (app, none)

/-- The `ipc.on('getCitation', ...)` listener: `event.returnValue =
global.citeproc.getCitation(idList)` — dereferences `global.citeproc`
without a guard, so it throws when the citation engine is uninitialized. -/
def getCitationListener (app : App) (idList : Val) : Except Err Val :=
  match app.citeproc with
  | some c => .ok (c.getCitation idList)
  | none => .error "TypeError: cannot read getCitation of undefined"

/-- The `ipc.on('updateItems', ...)` listener: `event.returnValue =
global.citeproc.updateItems(idList)` — likewise unguarded. -/
def updateItemsListener (app : App) (idList : Val) : Except Err Val :=
  match app.citeproc with
  | some c => .ok (c.updateItems idList)
  | none => .error "TypeError: cannot read updateItems of undefined"

/-- The command names carried by the cases of `handleEvent`'s built-in
switch (everything before its `default`). -/
def builtinEventCmds : List String :=
  ["app-quit", "win-maximise", "win-minimise", "win-close", "win-menu",
   "get-paths", "file-get-quicklook", "file-get", "dir-select",
   "file-modified", "set-target", "dir-open", "close-root", "file-search",
   "force-open", "toggle-theme", "toggle-snippets", "get-preferences",
   "get-pdf-preferences", "get-tags-preferences", "update-config",
   "update-tags", "get-tags", "get-tags-database", "handle-drop",
   "request-stats-data", "citeproc-get-ids", "citeproc-make-bibliography"]

/-- The command names carried by the cases of `runCall`'s switch
(everything before its `default`). -/
def builtinCallCmds : List String :=
  ["win-maximise", "win-minimise", "win-close", "request-files",
   "make-standalone", "get-tags-database", "get-custom-css",
   "get-custom-css-path", "set-custom-css"]

/-! ## Concrete fixtures for witnesses and counterexamples -/

/-- A concrete file of hash 42 known to the File Index. -/
def file42 : ZFile :=
  { hash := 42, path := "/notes/a.md",
    withContentV := .vobj [("hash", .vnum 42), ("content", .vstr "# A")],
    metadataV := .vobj [("hash", .vnum 42)],
    search := fun _ => .vlist [] }

/-- A concrete directory of hash 9. -/
def dir9 : ZDir := { hash := 9 }

/-- A concrete application state: one file, a registry recognizing nothing,
no dictionary, no citation engine, an active window, no focused window. -/
def app0 : App :=
  { files := [file42],
    runCommand := fun _ _ => .notRecognized,
    config := [("darkTheme", .vbool false), ("snippets", .vbool true)],
    wholeConfig := .vobj [],
    supportedLangs := .vlist [],
    availableDicts := .vlist [],
    customCSS := .vstr "css-content",
    customCSSPath := .vstr "/home/user/custom.css",
    dict := none, citeproc := none,
    appTags := .vlist [], globalTags := .vlist [],
    stats := .vobj [], pathDummies := .vlist [],
    currentFile := some file42, currentDir := some dir9,
    window := some (), focusedWinMaximized := none,
    askFileRes := fun _ _ => .vlist [],
    findExact := fun _ => none }

/-- The `{command, content}` object `ZettlrIPC.send` pushes to the window. -/
def pushEnv (command : String) (content : Val) : Val :=
  .vobj [("command", .vstr command), ("content", content)]

/-- Like `app0`, but the registry recognizes `toggle-theme` and
`registry-only-cmd`, and both of their handlers throw during execution. -/
def appReg : App :=
  { app0 with runCommand := fun c _ =>
      if c = "toggle-theme" then .handlerThrew "boom"
      else if c = "registry-only-cmd" then .handlerThrew "boom"
      else .notRecognized }

/-- Like `app0`, but the File Index holds no files at all. -/
def appNoFiles : App := { app0 with files := [] }

/-! ## Claims -/

/-- Claim C1 (refuted; the code differs from the spec's stated intent).
When the registry recognizes `toggle-theme` but its handler throws, the
catch-all around `runCommand` swallows the exception and falls through to
the BUILT-IN `toggle-theme` case, which flips `darkTheme` and pushes a
`config-update` — the failure does not propagate and the built-in fallback
does run.  When the throwing command has no built-in case
(`registry-only-cmd`), the failure is swallowed entirely and mislabelled as
an unknown command in the diagnostic log. -/
theorem C1_handler_failure_falls_through :
    handleEvent appReg "toggle-theme" (.vobj []) =
      .ok ({ appReg with
              config := [("darkTheme", .vbool true), ("snippets", .vbool true)] },
        [.windowSend (pushEnv "config-update" (.vobj []))], .undefined) ∧
    handleEvent appReg "registry-only-cmd" (.vobj []) =
      .ok (appReg, [.logUnknown "registry-only-cmd"], .undefined) := ⟨rfl, rfl⟩

/-- Claim C2 (refuted; the code differs from the spec's stated intent).
With no file of hash 7 in the File Index, each of `file-drag-start`,
`ql-get-file` and `file-search` dereferences the `null` returned by
`findFile` and throws an uncaught `TypeError` on the backend thread — no
typed not-found value, no `notifyError`. -/
theorem C2_missing_file_lookup_crashes :
    onMessage appNoFiles
      { command := some "file-drag-start",
        content := some (.vobj [("hash", .vnum 7)]),
        cypher := none, returnValue := none } =
      .error "TypeError: cannot read path of null" ∧
    onMessage appNoFiles
      { command := some "ql-get-file", content := some (.vnum 7),
        cypher := none, returnValue := none } =
      .error "TypeError: cannot read withContent of null" ∧
    onMessage appNoFiles
      { command := some "file-search",
        content := some (.vobj [("hash", .vnum 7), ("terms", .vlist [])]),
        cypher := none, returnValue := none } =
      .error "TypeError: cannot read search of null" := ⟨rfl, rfl, rfl⟩

/-- Claim C3, counterexample to the unrestricted statement: an envelope
whose command is `file-drag-start` and which carries the non-empty
correlation token `x` is classified as a drag start (priority 2 beats the
correlated-call branch): the router starts a native drag and performs no
`message`-channel send at all, so no reply with `returnValue` is produced. -/
theorem C3_drag_priority_counterexample :
    onMessage app0
      { command := some "file-drag-start",
        content := some (.vobj [("hash", .vnum 42)]),
        cypher := some "x", returnValue := none } =
      .ok (app0, [.startDrag "/notes/a.md" "/assets/dragicon.png"]) ∧
    (∀ v, Output.senderSend "message" v ∉
      [Output.startDrag "/notes/a.md" "/assets/dragicon.png"]) :=
  ⟨rfl, fun _ h => by simp at h⟩

/-- Claim C3 (amended: the envelope must carry a `command` attribute other
than `file-drag-start`).  For every such envelope with a present, non-empty
correlation token, the router runs `runCall` on its command and content,
attaches the result as `returnValue` on the same envelope, and sends that
envelope — unmodified except for `returnValue` — back to the originating
sender on the `message` channel; and every `get-custom-css-path` envelope
with token `x` yields a reply with the same token and `returnValue` equal
to the Config Store's current custom-CSS path. -/
theorem C3_correlated_call_roundtrip (app app' : App) (msg : Message)
    (cmd cy : String) (outs : List Output) (v : Val)
    (hc : msg.command = some cmd)
    (hne : cmd ≠ "file-drag-start")
    (hcy : msg.cypher = some cy) (hcy' : cy ≠ "")
    (hrun : runCall app cmd msg.content = .ok (app', outs, v)) :
    onMessage app msg =
      .ok (app', outs ++
        [.senderSend "message" (messageVal { msg with returnValue := some v })]) ∧
    (∀ (appc : App) (msgc : Message),
      msgc.command = some "get-custom-css-path" → msgc.cypher = some "x" →
      onMessage appc msgc =
        .ok (appc, [.senderSend "message"
          (messageVal { msgc with returnValue := some appc.customCSSPath })])) := by
  constructor
  · unfold onMessage
    rw [hc]
    dsimp only
    rw [if_neg hne]
    have hcp : cypherPresent msg = true := by simp [cypherPresent, hcy, hcy']
    simp [hcp, hrun]
  · intro appc msgc h1 h2
    unfold onMessage
    rw [h1]
    dsimp only
    have hcp : cypherPresent msgc = true := by simp [cypherPresent, h2]
    simp [hcp, runCall]

/-- Witness for C3: the concrete `get-custom-css-path` round trip on `app0`
with correlation token `x`. -/
theorem C3_correlated_call_roundtrip_witness :
    onMessage app0
      { command := some "get-custom-css-path", content := none,
        cypher := some "x", returnValue := none } =
      .ok (app0, [] ++
        [.senderSend "message" (messageVal
          { command := some "get-custom-css-path", content := none,
            cypher := some "x", returnValue := some app0.customCSSPath })]) ∧
    (∀ (appc : App) (msgc : Message),
      msgc.command = some "get-custom-css-path" → msgc.cypher = some "x" →
      onMessage appc msgc =
        .ok (appc, [.senderSend "message"
          (messageVal { msgc with returnValue := some appc.customCSSPath })])) :=
  C3_correlated_call_roundtrip app0 app0
    { command := some "get-custom-css-path", content := none,
      cypher := some "x", returnValue := none }
    "get-custom-css-path" "x" [] app0.customCSSPath
    rfl (by simp) rfl (by simp) rfl

/-- Claim C4: an inbound message without a `command` attribute is answered
by exactly one error log naming the malformed payload; the state is
untouched and the trace holds no dispatch and no channel send. -/
theorem C4_missing_command_rejected (app : App) (msg : Message)
    (h : msg.command = none) :
    onMessage app msg =
      .ok (app, [.logError "system.no_command" (messageVal msg)]) := by
  unfold onMessage
  rw [h]

/-- Witness for C4 at a concrete payload. -/
theorem C4_missing_command_rejected_witness :
    onMessage app0
      { command := none, content := some (.vnum 1),
        cypher := none, returnValue := none } =
      .ok (app0, [.logError "system.no_command" (messageVal
        { command := none, content := some (.vnum 1),
          cypher := none, returnValue := none })]) :=
  C4_missing_command_rejected app0
    { command := none, content := some (.vnum 1),
      cypher := none, returnValue := none } rfl

/-- Claim C5: for a command the registry does not recognize and that names
no case of either built-in switch, `handleEvent` leaves the state unchanged
and emits exactly one diagnostic log as its whole trace, and `runCall`
likewise logs once and returns `null`. -/
theorem C5_unknown_command_null_result (app : App) (cmd : String) (cnt : Val)
    (arg : Option Val)
    (hreg : app.runCommand cmd cnt = .notRecognized)
    (he : cmd ∉ builtinEventCmds)
    (hc : cmd ∉ builtinCallCmds) :
    handleEvent app cmd cnt = .ok (app, [.logUnknown cmd], .undefined) ∧
    runCall app cmd arg = .ok (app, [.logUnknown cmd], .null) := by
  constructor
  · unfold handleEvent
    rw [hreg]
    unfold handleBuiltin
    split <;> simp_all [builtinEventCmds]
  · unfold runCall
    split <;> simp_all [builtinCallCmds]

/-- Witness for C5 at the concrete unknown command `frobnicate`. -/
theorem C5_unknown_command_null_result_witness :
    handleEvent app0 "frobnicate" (.vobj []) =
      .ok (app0, [.logUnknown "frobnicate"], .undefined) ∧
    runCall app0 "frobnicate" none =
      .ok (app0, [.logUnknown "frobnicate"], .null) :=
  C5_unknown_command_null_result app0 "frobnicate" (.vobj []) none
    rfl (by decide) (by decide)

/-- Claim C6 (refuted in its citation half; the code differs from the
spec's stated intent).  With no dictionary loaded the `typo` listener
degrades gracefully (`check` answers `not-ready`, `suggest` answers `[]`),
but with no citation engine loaded the `getCitation` and `updateItems`
listeners dereference the absent `global.citeproc` and throw an uncaught
`TypeError` instead of completing. -/
theorem C6_uninitialized_subsystems :
    typoListener app0 (.vobj [("type", .vstr "check"), ("term", .vstr "word")]) =
      .ok (app0, some (.vstr "not-ready")) ∧
    typoListener app0 (.vobj [("type", .vstr "suggest"), ("term", .vstr "word")]) =
      .ok (app0, some (.vlist [])) ∧
    getCitationListener app0 (.vlist [.vstr "doe2020"]) =
      .error "TypeError: cannot read getCitation of undefined" ∧
    updateItemsListener app0 (.vlist []) =
      .error "TypeError: cannot read updateItems of undefined" :=
  ⟨rfl, rfl, rfl, rfl⟩

/-- Claim C7: dispatching the built-in `get-paths` with an active window
pushes, in strict order, `paths-update`, `file-set-current` with the open
file's hash, `dir-set-current` with the current directory's hash, and
`file-open` with the open file's full content; with no open file (and no
current directory) the fourth push is omitted and the markers carry
`null`. -/
theorem C7_get_paths_push_order (app : App) (cnt : Val)
    (hreg : app.runCommand "get-paths" cnt = .notRecognized)
    (hwin : app.window = some ()) :
    (∀ f d, app.currentFile = some f → app.currentDir = some d →
      handleEvent app "get-paths" cnt =
        .ok (app,
          [.windowSend (pushEnv "paths-update" app.pathDummies),
           .windowSend (pushEnv "file-set-current" (.vnum f.hash)),
           .windowSend (pushEnv "dir-set-current" (.vnum d.hash)),
           .windowSend (pushEnv "file-open" f.withContentV)], .undefined)) ∧
    (app.currentFile = none → app.currentDir = none →
      handleEvent app "get-paths" cnt =
        .ok (app,
          [.windowSend (pushEnv "paths-update" app.pathDummies),
           .windowSend (pushEnv "file-set-current" .null),
           .windowSend (pushEnv "dir-set-current" .null)], .undefined)) := by
  constructor
  · intro f d hf hd
    unfold handleEvent
    rw [hreg]
    unfold handleBuiltin
    simp [send, hwin, hf, hd, pushEnv]
  · intro hf hd
    unfold handleEvent
    rw [hreg]
    unfold handleBuiltin
    simp [send, hwin, hf, hd, pushEnv]

/-- Witness for C7: both branches at concrete states — `app0` has file 42
open in directory 9; the variant state has nothing open. -/
theorem C7_get_paths_push_order_witness :
    handleEvent app0 "get-paths" (.vobj []) =
      .ok (app0,
        [.windowSend (pushEnv "paths-update" app0.pathDummies),
         .windowSend (pushEnv "file-set-current" (.vnum file42.hash)),
         .windowSend (pushEnv "dir-set-current" (.vnum dir9.hash)),
         .windowSend (pushEnv "file-open" file42.withContentV)], .undefined) ∧
    handleEvent { app0 with currentFile := none, currentDir := none }
        "get-paths" (.vobj []) =
      .ok ({ app0 with currentFile := none, currentDir := none },
        [.windowSend (pushEnv "paths-update" app0.pathDummies),
         .windowSend (pushEnv "file-set-current" .null),
         .windowSend (pushEnv "dir-set-current" .null)], .undefined) :=
  ⟨(C7_get_paths_push_order app0 (.vobj []) rfl rfl).1 file42 dir9 rfl rfl,
   (C7_get_paths_push_order { app0 with currentFile := none, currentDir := none }
     (.vobj []) rfl rfl).2 rfl rfl⟩

/-- Claim C8: a `ql-get-file` message carrying the hash of a present file
and no correlation token makes the router send that file's full content on
the `file` channel directly to the requesting sender, and the single trace
element is neither a window push nor a `message`-channel send. -/
theorem C8_ql_get_file_side_channel (app : App) (msg : Message) (f : ZFile)
    (n : Int)
    (hc : msg.command = some "ql-get-file")
    (hcy : msg.cypher = none)
    (hcnt : msg.content = some (.vnum n))
    (hf : findFile app (some n) = some f) :
    onMessage app msg = .ok (app, [.senderSend "file" f.withContentV]) ∧
    (∀ v, Output.windowSend v ≠ Output.senderSend "file" f.withContentV) ∧
    (∀ v, Output.senderSend "message" v ≠ Output.senderSend "file" f.withContentV) := by
  refine ⟨?_, fun v h => by simp at h, fun v h => by simp at h⟩
  unfold onMessage
  rw [hc]
  dsimp only
  have hcp : cypherPresent msg = false := by simp [cypherPresent, hcy]
  simp [hcp, hcnt, valHash, hf]

/-- Witness for C8 at hash 42 on `app0`. -/
theorem C8_ql_get_file_side_channel_witness :
    onMessage app0
      { command := some "ql-get-file", content := some (.vnum 42),
        cypher := none, returnValue := none } =
      .ok (app0, [.senderSend "file" file42.withContentV]) ∧
    (∀ v, Output.windowSend v ≠ Output.senderSend "file" file42.withContentV) ∧
    (∀ v, Output.senderSend "message" v ≠
      Output.senderSend "file" file42.withContentV) :=
  C8_ql_get_file_side_channel app0
    { command := some "ql-get-file", content := some (.vnum 42),
      cypher := none, returnValue := none }
    file42 42 rfl rfl rfl rfl

/-- Claim C9: `send` with no active window is a graceful no-op — it cannot
throw (it is a total function), produces no output, and hands back the
unchanged IPC state for chaining. -/
theorem C9_send_no_window_noop (app : App) (c : String) (v : Val)
    (h : app.window = none) :
    send app c v = (app, []) := by
  unfold send
  rw [h]

/-- Witness for C9: invoking `send` on a state in which no window was ever
created. -/
theorem C9_send_no_window_noop_witness :
    send { app0 with window := none } "notify" (.vstr "hello") =
      ({ app0 with window := none }, []) :=
  C9_send_no_window_noop { app0 with window := none } "notify" (.vstr "hello") rfl

/-- Claim C10: a synchronous `typo` message whose `type` is neither
`check` nor `suggest` leaves the state unchanged and sets no
`returnValue` on the event. -/
theorem C10_typo_unknown_type_no_reply (app : App) (m : Val) (ty : Val)
    (hty : objGet m "type" = .ok ty)
    (h1 : ty ≠ .vstr "check") (h2 : ty ≠ .vstr "suggest") :
    typoListener app m = .ok (app, none) := by
  unfold typoListener
  rw [hty]
  split <;> simp_all

/-- Witness for C10 at the concrete unknown type `lookup`. -/
theorem C10_typo_unknown_type_no_reply_witness :
    typoListener app0 (.vobj [("type", .vstr "lookup"), ("term", .vstr "w")]) =
      .ok (app0, none) :=
  C10_typo_unknown_type_no_reply app0
    (.vobj [("type", .vstr "lookup"), ("term", .vstr "w")])
    (.vstr "lookup") rfl (by simp) (by simp)
